import Mathlib

/-!
# Hawkshot — shallow embedding and verification

Shallow Lean 4 embedding of the checkpoint/resume, probe-decision, path
expansion and export logic of the Hawkshot reconnaissance engine
(`hawkshot/core/config.py`, `hawkshot/core/output.py`,
`hawkshot/modules/{dns_enum,web_dir,vhost_enum}.py`), with theorems settling
the specification claims about it.

Conventions: Python lists become `List`, dicts read from JSON become a `Json`
value, `None`-or-value becomes `Option`, mutating methods become functions
returning the updated record.  HTTP status codes and body lengths are natural
numbers.
-/

namespace Hawkshot

/-- JSON values as produced by Python's `json` module.  Result dictionaries
(`format_dns_result` etc. in `core/output.py`) and checkpoint files are such
values.  `obj` keeps the key/value pairs in document order; like Python's
`json.load`, a duplicated key is resolved to its last occurrence (see
`lookupLast`). -/
inductive Json where
  | null : Json
  | bool (b : Bool) : Json
  | num (n : Int) : Json
  | str (s : String) : Json
  | arr (elems : List Json) : Json
  | obj (fields : List (String × Json)) : Json

/-- `ScanState` from `core/config.py` (lines 44–86): the serializable resume
state.  Field names and order follow the Python dataclass; `found_results`
holds the result dictionaries as JSON objects, matching `List[dict]`. -/
structure ScanState where
  module : String
  target : String
  wordlist : String
  completed_items : List String
  found_results : List Json
  started_at : String
  last_updated : String
  total_items : Int

/-- `ScanState.mark_completed` (config.py lines 79–82): append the item to
`completed_items` unless it is already there. -/
def ScanState.mark_completed (s : ScanState) (item : String) : ScanState :=
  if item ∈ s.completed_items then s
  else { s with completed_items := s.completed_items ++ [item] }

/-- `ScanState.add_result` (config.py lines 84–86): append one result dict. -/
def ScanState.add_result (s : ScanState) (result : Json) : ScanState :=
  { s with found_results := s.found_results ++ [result] }

/-- `ScanState.get_remaining_items` (config.py lines 74–77): the items of
`all_items` whose token is not in the completed set, in original order.
Python materializes `set(self.completed_items)` first; membership in that set
coincides with membership in the list. -/
def ScanState.get_remaining_items (s : ScanState) (all_items : List String) :
    List String :=
  all_items.filter (fun item => !(s.completed_items.contains item))

/-- `expand_paths_with_extensions` (web_dir.py lines 30–40): with a falsy
(empty) extension list the input is returned unchanged; otherwise each path
contributes itself followed by `path + ext` for each extension, in order. -/
def expand_paths_with_extensions (paths : List String) (extensions : List String) :
    List String :=
  if extensions.isEmpty then paths
  else paths.foldl (fun expanded path =>
    expanded ++ path :: extensions.map (fun ext => path ++ ext)) []

/-- The VHost baseline-difference test (vhost_enum.py lines 91–94):
`response.status_code != baseline_status or
 abs(content_length - baseline_length) > baseline_length * 0.1`.
The float comparison `abs(l - bl) > bl * 0.1` is embedded exactly as the
rational inequality `10 * |l - bl| > bl`; for every body length small enough
that the accumulated double-rounding error of `bl * 0.1` stays below `1/10`
(far beyond any HTTP body), the two comparisons of the integer `|l - bl|`
against the threshold agree. -/
def vhost_is_different (baseline_status baseline_length status length : Nat) :
    Bool :=
  (status != baseline_status) ||
    (10 * ((length : Int) - (baseline_length : Int)).natAbs > baseline_length)

/-- The VHost match decision (vhost_enum.py line 96):
`if is_different and response.status_code != 404`. -/
def vhost_is_match (baseline_status baseline_length status length : Nat) :
    Bool :=
  vhost_is_different baseline_status baseline_length status length &&
    (status != 404)

/-- Python truthiness of `config.status_codes` (web_dir.py line 75): a filter
is active only when the option is present and the list is non-empty. -/
def status_filter_truthy : Option (List Nat) → Bool
  | none => false
  | some codes => !codes.isEmpty

/-- The directory-probe match decision (web_dir.py lines 74–77):
`if config.status_codes and response.status_code not in config.status_codes:
 pass elif response.status_code != 404: <record match>`. -/
def dir_is_match (status_codes : Option (List Nat)) (status : Nat) : Bool :=
  if status_filter_truthy status_codes &&
      !((status_codes.getD []).contains status) then false
  else status != 404

end Hawkshot

namespace Hawkshot

/-- Observable orchestrator events after the worker pool has been started,
in program order.  From `run_dns_enum` (dns_enum.py lines 179–217),
`run_dir_scan` (web_dir.py lines 215–250) and `run_vhost_enum`
(vhost_enum.py lines 228–256). -/
inductive RunEvent where
  | saveState : RunEvent
  | reraiseInterrupt : RunEvent
  | summarize : RunEvent
  | cleanCheckpoint : RunEvent
deriving DecidableEq

/-- The tail of a module run after `work_queue.join()`, as the list of
observable events.  Arguments:
* `hasCleanupBlock` — `true` for dns_enum.py lines 210–215 and web_dir.py
  lines 243–248; `false` for vhost_enum.py, which has no cleanup block;
* `stateSome` — whether the Python `state` variable is not `None`;
* `resume` — `config.resume`;
* `interrupted` — whether `KeyboardInterrupt` was raised while waiting on
  `work_queue.join()`;
* `fileExists` — whether `os.path.exists(state_file)` holds at cleanup time.

On interrupt: `state.save(...)` runs iff `state` is not `None`, then the
exception is re-raised, skipping the summary.  Otherwise the summary runs and
the checkpoint file is removed iff `state and not config.resume` holds and
the file exists. -/
def module_tail (hasCleanupBlock stateSome resume interrupted fileExists :
    Bool) : List RunEvent :=
  if interrupted then
    (if stateSome then [RunEvent.saveState] else []) ++
      [RunEvent.reraiseInterrupt]
  else
    [RunEvent.summarize] ++
      (if hasCleanupBlock && (stateSome && !resume) && fileExists then
        [RunEvent.cleanCheckpoint] else [])

/-- A whole module run: in all three modules the `state` variable is assigned
a `ScanState` exactly when `config.resume` is set (dns_enum.py lines 113–127,
web_dir.py lines 149–163, vhost_enum.py lines 162–176: `state = None`
followed by `if config.resume: state = ...` where both branches of the inner
conditional produce a state), so `stateSome = resume`. -/
def module_run (hasCleanupBlock resume interrupted fileExists : Bool) :
    List RunEvent :=
  module_tail hasCleanupBlock resume resume interrupted fileExists

/-- What `ScanState.load` finds at its `filepath`: no file at all; a file
whose bytes are not valid UTF-8 (reading it through
`open(filepath, 'r', encoding='utf-8')` raises `UnicodeDecodeError`); a
decodable file `json.load` cannot parse (`json.JSONDecodeError`); or a
parsed JSON document. -/
inductive FileContent where
  | absent : FileContent
  | undecodable : FileContent
  | unparseable : FileContent
  | parsed (j : Json) : FileContent

/-- The one exception class that escapes `ScanState.load`: the `except`
clause (config.py line 71) names only `json.JSONDecodeError`, `TypeError`
and `KeyError`, so a `UnicodeDecodeError` raised while decoding the file
bytes propagates to the caller. -/
inductive PyError where
  | unicodeDecodeError : PyError

/-- Lookup in a JSON object with Python `dict` semantics: `json.load` builds
the dict by successive assignment, so a duplicated key keeps its last
occurrence. -/
def lookupLast (kvs : List (String × Json)) (key : String) : Option Json :=
  (kvs.reverse.find? (fun kv => kv.1 == key)).map (fun kv => kv.2)

/-- The dataclass field names of `ScanState`, in declaration order
(config.py lines 47–54). -/
def scanStateFields : List String :=
  ["module", "target", "wordlist", "completed_items", "found_results",
   "started_at", "last_updated", "total_items"]

/-- The JSON document `ScanState.save` writes: `asdict(self)` serialized by
`json.dump` (config.py lines 56–60), fields in dataclass order. -/
def encodeState (s : ScanState) : Json :=
  Json.obj
    [("module", Json.str s.module),
     ("target", Json.str s.target),
     ("wordlist", Json.str s.wordlist),
     ("completed_items", Json.arr (s.completed_items.map Json.str)),
     ("found_results", Json.arr s.found_results),
     ("started_at", Json.str s.started_at),
     ("last_updated", Json.str s.last_updated),
     ("total_items", Json.num s.total_items)]

/-- `ScanState.save` (config.py lines 56–60): sets `last_updated` to the
current time, then writes the JSON serialization.  Returns the updated state
and the file content written.  The wall-clock time is a parameter `now`. -/
def ScanState.save (s : ScanState) (now : String) : ScanState × Json :=
  let s' := { s with last_updated := now }
  (s', encodeState s')

/-- The object `cls(**data)` constructs in `ScanState.load`.  Python
dataclasses perform no runtime type checking, so each attribute holds
whatever JSON value the file supplied — hence every field is `Json` here,
not the declared dataclass type. -/
structure LoadedState where
  module : Json
  target : Json
  wordlist : Json
  completed_items : Json
  found_results : Json
  started_at : Json
  last_updated : Json
  total_items : Json

/-- `ScanState.load` (config.py lines 62–72).  `None` when the file is
absent; a `UnicodeDecodeError` raised while decoding the file bytes is NOT
among the caught exception classes and propagates (modelled as
`Except.error`); `json.JSONDecodeError` on an unparseable decodable file is
caught → `None`; `cls(**data)` raises `TypeError` when `data` is not a dict,
when a key is not a dataclass field (unexpected keyword argument), or when a
required field (`module`, `target`, `wordlist` — the fields without
defaults) is missing — all caught → `None`.  Otherwise the object is built
from the supplied values with the dataclass defaults filling absent optional
fields; the timestamp defaults call `datetime.now()`, passed here as `now`.
Field values are NOT type-checked. -/
def ScanState.load (now : String) (fc : FileContent) :
    Except PyError (Option LoadedState) :=
  match fc with
  | FileContent.absent => Except.ok none
  | FileContent.undecodable => Except.error PyError.unicodeDecodeError
  | FileContent.unparseable => Except.ok none
  | FileContent.parsed (Json.obj kvs) =>
    if kvs.all (fun kv => scanStateFields.contains kv.1) then
      match lookupLast kvs "module", lookupLast kvs "target",
          lookupLast kvs "wordlist" with
      | some m, some t, some w =>
        Except.ok
          (some { module := m, target := t, wordlist := w,
                  completed_items :=
                    (lookupLast kvs "completed_items").getD (Json.arr []),
                  found_results :=
                    (lookupLast kvs "found_results").getD (Json.arr []),
                  started_at :=
                    (lookupLast kvs "started_at").getD (Json.str now),
                  last_updated :=
                    (lookupLast kvs "last_updated").getD (Json.str now),
                  total_items :=
                    (lookupLast kvs "total_items").getD (Json.num 0) })
      | _, _, _ => Except.ok none
    else Except.ok none
  | FileContent.parsed _ => Except.ok none

/-- The returns-`None` condition as amended from the spec's words: the file
is absent, is decodable but not JSON-parseable, is not a JSON object,
carries a key that is not a `ScanState` field, or lacks one of the required
fields `module`, `target`, `wordlist`.  (Field-value types do not appear:
the dataclass constructor never checks them.  An undecodable file is NOT
here: it raises instead of returning `None`.) -/
def loadRejected : FileContent → Bool
  | FileContent.absent => true
  | FileContent.undecodable => false
  | FileContent.unparseable => true
  | FileContent.parsed (Json.obj kvs) =>
    !(kvs.all (fun kv => scanStateFields.contains kv.1)) ||
      (lookupLast kvs "module").isNone ||
      (lookupLast kvs "target").isNone ||
      (lookupLast kvs "wordlist").isNone
  | FileContent.parsed _ => true

/-- Discriminates the `None` return among `ScanState.load`'s outcomes
(the others being a loaded state and a raised `UnicodeDecodeError`). -/
def loadReturnedNone : Except PyError (Option LoadedState) → Bool
  | Except.ok none => true
  | _ => false

/-- Modelled from the spec: the checkpoint-file field types of §6 —
`module`/`target`/`wordlist` strings, `completed_items` a list of strings,
`found_results` a list of structured records (objects), timestamps strings,
`total_items` an integer.  The spec claims a mismatch is treated as "no
checkpoint"; the source has no such check, so this predicate exists only to
state that divergence. -/
def specFieldTypesOk : Json → Bool
  | Json.obj kvs =>
    (match lookupLast kvs "module" with
     | some (Json.str _) => true | _ => false) &&
    (match lookupLast kvs "target" with
     | some (Json.str _) => true | _ => false) &&
    (match lookupLast kvs "wordlist" with
     | some (Json.str _) => true | _ => false) &&
    (match lookupLast kvs "completed_items" with
     | some (Json.arr elems) =>
       elems.all (fun e => match e with | Json.str _ => true | _ => false)
     | none => true | _ => false) &&
    (match lookupLast kvs "found_results" with
     | some (Json.arr elems) =>
       elems.all (fun e => match e with | Json.obj _ => true | _ => false)
     | none => true | _ => false) &&
    (match lookupLast kvs "started_at" with
     | some (Json.str _) => true | none => true | _ => false) &&
    (match lookupLast kvs "last_updated" with
     | some (Json.str _) => true | none => true | _ => false) &&
    (match lookupLast kvs "total_items" with
     | some (Json.num _) => true | none => true | _ => false)
  | _ => false

/-- One worker iteration for one dequeued candidate, as executed under the
shared lock (dns_enum.py lines 53–81, web_dir.py lines 65–110, vhost_enum.py
lines 72–115): the probe's results (zero or more, e.g. one per DNS record)
are appended via `add_result`, then the candidate is marked completed.  The
probe is the abstract `candidate → results` operation of the module. -/
def processItem (probe : String → List Json) (s : ScanState) (item : String) :
    ScanState :=
  ((probe item).foldl ScanState.add_result s).mark_completed item

/-- Draining a queue holding `items` in FIFO order: each item is processed
once, in order (the sequential semantics of the worker loop). -/
def runItems (probe : String → List Json) (s : ScanState)
    (items : List String) : ScanState :=
  items.foldl (processItem probe) s

/-- The fresh `ScanState` a module constructs when no usable checkpoint
exists (e.g. dns_enum.py lines 122–127): empty completed set, no results. -/
def freshState (module target wordlist : String) (now : String)
    (total : Int) : ScanState :=
  { module := module, target := target, wordlist := wordlist,
    completed_items := [], found_results := [],
    started_at := now, last_updated := now, total_items := total }

/-- `item.get('raw', str(item))` for a result dictionary (output.py line
186): the canonical single-line rendering of a result.  Every result built by
the `format_*` functions carries a string `'raw'`; `strOf` stands for
Python's `str` fallback for dictionaries without one. -/
def rawRendering (strOf : Json → String) (result : Json) : String :=
  match result with
  | Json.obj kvs =>
    match lookupLast kvs "raw" with
    | some (Json.str r) => r
    | _ => strOf result
  | _ => strOf result

/-- The result lines of the text export (output.py lines 186–187): one
rendering per result, sorted by rendering.  Python's `sorted` is a stable
comparison sort by the key; `List.insertionSort` is the same stable sort. -/
def save_results_text_lines (strOf : Json → String) (results : List Json) :
    List String :=
  (results.insertionSort
      (fun a b => rawRendering strOf a ≤ rawRendering strOf b)).map
    (rawRendering strOf)

/-- The JSON export document (output.py lines 163–175): the `results` entry
is the result list itself and `total_count` is its length. -/
def save_results_json_doc (results : List Json) : List Json × Int :=
  (results, (results.length : Int))

/-- C1: the VHost probe reports a candidate iff its status differs from the
baseline status or its body length deviates from the baseline length by
strictly more than 10 %, and the status is not 404; the spec's decision table
for baseline (200, 1000) holds, with the exact-10 % tie suppressed. -/
theorem vhost_match_characterization :
    (∀ bs bl s l : Nat,
      vhost_is_match bs bl s l = true ↔
        ((s ≠ bs ∨ 10 * ((l : Int) - (bl : Int)).natAbs > bl) ∧ s ≠ 404)) ∧
    vhost_is_match 200 1000 200 1000 = false ∧
    vhost_is_match 200 1000 200 1200 = true ∧
    (∀ l : Nat, vhost_is_match 200 1000 404 l = false) ∧
    vhost_is_match 200 1000 500 1000 = true ∧
    vhost_is_match 200 1000 200 1100 = false ∧
    vhost_is_match 200 1000 200 900 = false := by
  refine ⟨?_, by decide, by decide, ?_, by decide, by decide, by decide⟩
  · intro bs bl s l
    simp [vhost_is_match, vhost_is_different, and_comm]
  · intro l
    simp [vhost_is_match, vhost_is_different]

/-- C6: an HTTP path probe response is a match iff its status is not 404 and
it is not the case that a (truthy, i.e. non-empty) status allow-list is
configured with the status absent from it; with allow-list {200, 301} a 403
is suppressed and a 301 is reported. -/
theorem dir_match_characterization :
    (∀ (codes : Option (List Nat)) (status : Nat),
      dir_is_match codes status = true ↔
        (status ≠ 404 ∧
          ¬(status_filter_truthy codes = true ∧
            (codes.getD []).contains status = false))) ∧
    dir_is_match (some [200, 301]) 403 = false ∧
    dir_is_match (some [200, 301]) 301 = true ∧
    dir_is_match (some [200, 301]) 404 = false ∧
    dir_is_match none 403 = true := by
  refine ⟨?_, by decide, by decide, by decide, by decide⟩
  intro codes status
  cases hA : status_filter_truthy codes <;>
    cases hB : (codes.getD []).contains status <;>
      simp_all [dir_is_match]

/-- C3: whenever the interrupt arrives while the orchestrator waits on the
queue drain and a ScanState exists (`resume` set — the only case in which one
is created), the events are exactly: save the state, then re-raise the
interrupt; the summary phase is never entered on an interrupted run. -/
theorem interrupt_saves_before_reraise :
    ∀ hasCleanupBlock fileExists : Bool,
      module_run hasCleanupBlock true true fileExists =
        [RunEvent.saveState, RunEvent.reraiseInterrupt] ∧
      (∀ r : Bool,
        RunEvent.summarize ∉ module_run hasCleanupBlock r true fileExists) := by
  decide

/-- C2: on a normally completing run, `save` is indeed never called — but the
checkpoint file is never deleted either, for any module, resume flag or file
state, because the cleanup guard `state and not config.resume` is
unsatisfiable (`state` is non-`None` exactly when `config.resume` is set).
In particular a resumed run that completes normally (`module_run true true
false true`, stale checkpoint file on disk) produces only the summary event,
leaving the stale file behind, contradicting the cleanup the code's own
comment announces. -/
theorem checkpoint_cleanup_unreachable :
    (∀ hasCleanupBlock resume fileExists : Bool,
      RunEvent.saveState ∉
          module_run hasCleanupBlock resume false fileExists ∧
      RunEvent.cleanCheckpoint ∉
          module_run hasCleanupBlock resume false fileExists) ∧
    module_run true true false true = [RunEvent.summarize] := by
  exact ⟨by decide, rfl⟩

/-- C7: saving a `ScanState` and loading the written file back yields a
state whose `completed_items` and `found_results` are exactly the saved ones
(as their JSON images; only `last_updated` was rewritten by `save`). -/
theorem checkpoint_roundtrip (s : ScanState) (now now' : String) :
    (ScanState.load now' (FileContent.parsed (s.save now).2)).map
        (fun o => o.map (fun d => (d.completed_items, d.found_results))) =
      Except.ok (some (Json.arr (s.completed_items.map Json.str),
                       Json.arr s.found_results)) := by
  rfl

/-- C5 (amended): `load` returns `None` exactly when the file is absent,
decodable-but-unparseable, not a JSON object, carries an unknown key, or
lacks a required field; wrong-typed field values are not rejected; and a
file whose bytes are not valid UTF-8 does not return `None` but raises
`UnicodeDecodeError` (the only outcome that escapes the except clause). -/
theorem load_none_iff_rejected (now : String) (fc : FileContent) :
    (ScanState.load now fc = Except.ok none ↔ loadRejected fc = true) ∧
    (ScanState.load now fc = Except.error PyError.unicodeDecodeError ↔
      fc = FileContent.undecodable) := by
  cases fc with
  | absent => constructor <;> simp [ScanState.load, loadRejected]
  | undecodable => constructor <;> simp [ScanState.load, loadRejected]
  | unparseable => constructor <;> simp [ScanState.load, loadRejected]
  | parsed j =>
    cases j with
    | obj kvs =>
      cases hall : kvs.all (fun kv => scanStateFields.contains kv.1) with
      | false =>
        simp only [ScanState.load, loadRejected, hall]
        simp
      | true =>
        cases hm : lookupLast kvs "module" <;>
          cases ht : lookupLast kvs "target" <;>
            cases hw : lookupLast kvs "wordlist" <;>
              · simp only [ScanState.load, loadRejected, hall, hm, ht, hw]
                simp
    | null => constructor <;> simp [ScanState.load, loadRejected]
    | bool b => constructor <;> simp [ScanState.load, loadRejected]
    | num n => constructor <;> simp [ScanState.load, loadRejected]
    | str s => constructor <;> simp [ScanState.load, loadRejected]
    | arr elems => constructor <;> simp [ScanState.load, loadRejected]

/-- A checkpoint document whose keys all match the dataclass schema but
whose `completed_items` value is a number instead of a list of strings. -/
def typeMismatchDoc : Json :=
  Json.obj
    [("module", Json.str "dns"),
     ("target", Json.str "example.com"),
     ("wordlist", Json.str "wordlist.txt"),
     ("completed_items", Json.num 5)]

/-- C5 counterexample, refuting "returns nothing (rather than raising)
whenever the file is absent, not parseable, or type-mismatched" on two
inputs: `typeMismatchDoc` fails the spec's field-type schema
(`completed_items` is not a list of strings) yet `ScanState.load` does not
return `None`, and an undecodable (invalid-UTF-8) file makes `load` raise
`UnicodeDecodeError` instead of returning `None`. -/
theorem load_accepts_mismatch_and_raises_on_undecodable :
    specFieldTypesOk typeMismatchDoc = false ∧
    loadReturnedNone (ScanState.load "2024-01-01T00:00:00"
        (FileContent.parsed typeMismatchDoc)) = false ∧
    ScanState.load "2024-01-01T00:00:00" FileContent.undecodable =
      Except.error PyError.unicodeDecodeError := by
  exact ⟨rfl, rfl, rfl⟩

/-- Accumulating `acc ++ f p` over a list is appending the flat map. -/
theorem foldl_append_eq_flatMap {α β : Type} (f : α → List β) :
    ∀ (l : List α) (acc : List β),
      l.foldl (fun a p => a ++ f p) acc = acc ++ l.flatMap f := by
  intro l
  induction l with
  | nil => intro acc; simp
  | cons p t ih =>
    intro acc
    simp [List.foldl_cons, ih, List.flatMap_cons, List.append_assoc]

/-- Length of the per-path expansion blocks. -/
theorem length_flatMap_expansion (exts : List String) :
    ∀ paths : List String,
      (paths.flatMap (fun p => p :: exts.map (fun e => p ++ e))).length =
        paths.length * (1 + exts.length) := by
  intro paths
  induction paths with
  | nil => simp
  | cons p t ih =>
    simp only [List.flatMap_cons, List.length_append, ih, List.length_cons,
      List.length_map]
    ring

/-- C9: with a non-empty extension list, expansion maps each path to itself
followed by each extended form, preserving candidate order, so the expanded
list has `|paths| * (1 + |extensions|)` entries; with no extensions the list
is unchanged. -/
theorem expansion_shape (paths exts : List String) (hne : exts ≠ []) :
    expand_paths_with_extensions paths exts =
      paths.flatMap (fun p => p :: exts.map (fun e => p ++ e)) ∧
    (expand_paths_with_extensions paths exts).length =
      paths.length * (1 + exts.length) ∧
    expand_paths_with_extensions paths [] = paths := by
  have hE : exts.isEmpty = false := by
    cases exts with
    | nil => exact absurd rfl hne
    | cons e t => rfl
  have hflat : expand_paths_with_extensions paths exts =
      paths.flatMap (fun p => p :: exts.map (fun e => p ++ e)) := by
    simp only [expand_paths_with_extensions, hE, Bool.false_eq_true,
      if_false]
    simpa using foldl_append_eq_flatMap
      (fun p => p :: exts.map (fun e => p ++ e)) paths []
  refine ⟨hflat, ?_, by simp [expand_paths_with_extensions]⟩
  rw [hflat]
  exact length_flatMap_expansion exts paths

/-- C9 witness at paths `["admin", "login"]`, extensions `[".php"]`. -/
theorem expansion_shape_witness :
    expand_paths_with_extensions ["admin", "login"] [".php"] =
      (["admin", "login"] : List String).flatMap
        (fun p => p :: ([".php"] : List String).map (fun e => p ++ e)) ∧
    (expand_paths_with_extensions ["admin", "login"] [".php"]).length =
      (["admin", "login"] : List String).length *
        (1 + ([".php"] : List String).length) ∧
    expand_paths_with_extensions ["admin", "login"] [] = ["admin", "login"] :=
  expansion_shape ["admin", "login"] [".php"] (by decide)

/-- `mark_completed` keeps `completed_items` duplicate-free. -/
theorem nodup_mark_completed (s : ScanState) (item : String)
    (h : s.completed_items.Nodup) :
    ((s.mark_completed item).completed_items).Nodup := by
  by_cases hm : item ∈ s.completed_items
  · simpa [ScanState.mark_completed, hm] using h
  · simp only [ScanState.mark_completed, hm, if_false]
    simp [List.nodup_append, h, hm]

/-- Any sequence of `mark_completed` calls keeps `completed_items`
duplicate-free. -/
theorem nodup_foldl_mark_completed (calls : List String) :
    ∀ s : ScanState, s.completed_items.Nodup →
      ((calls.foldl ScanState.mark_completed s).completed_items).Nodup := by
  induction calls with
  | nil => intro s h; simpa using h
  | cons c t ih =>
    intro s h
    exact ih _ (nodup_mark_completed s c h)

/-- C10: marking an already-completed candidate leaves the state unchanged,
and any sequence of `mark_completed` calls on a state whose completed list is
duplicate-free (as every state the modules build is) keeps it
duplicate-free. -/
theorem mark_completed_idempotent (s : ScanState) (item : String)
    (calls : List String) (hmem : item ∈ s.completed_items)
    (hnd : s.completed_items.Nodup) :
    s.mark_completed item = s ∧
    ((calls.foldl ScanState.mark_completed s).completed_items).Nodup := by
  refine ⟨?_, nodup_foldl_mark_completed calls s hnd⟩
  simp [ScanState.mark_completed, hmem]

/-- C10 witness on a state with completed item `"alpha"`, re-marking it and
then marking `["alpha", "beta", "alpha"]` in sequence. -/
theorem mark_completed_idempotent_witness :
    ("alpha" ∈
        ((freshState "dns" "example.com" "w.txt" "t0" 2).mark_completed
          "alpha").completed_items) ∧
    (((freshState "dns" "example.com" "w.txt" "t0" 2).mark_completed
        "alpha").mark_completed "alpha" =
      (freshState "dns" "example.com" "w.txt" "t0" 2).mark_completed
        "alpha") ∧
    (((["alpha", "beta", "alpha"] : List String).foldl
        ScanState.mark_completed
        ((freshState "dns" "example.com" "w.txt" "t0" 2).mark_completed
          "alpha")).completed_items).Nodup :=
  ⟨by decide,
   (mark_completed_idempotent _ "alpha" ["alpha", "beta", "alpha"]
      (by decide) (by decide)).1,
   (mark_completed_idempotent _ "alpha" ["alpha", "beta", "alpha"]
      (by decide) (by decide)).2⟩

/-- `add_result` never touches the completed set. -/
theorem completed_foldl_add_result (rs : List Json) :
    ∀ s : ScanState,
      (rs.foldl ScanState.add_result s).completed_items =
        s.completed_items := by
  induction rs with
  | nil => intro s; rfl
  | cons r t ih =>
    intro s
    simpa [ScanState.add_result] using ih (s.add_result r)

/-- The completed set of a drained run is the duplicate-collapsing fold of
the processed items over the starting completed set. -/
theorem completed_runItems (probe : String → List Json)
    (items : List String) :
    ∀ s : ScanState,
      (runItems probe s items).completed_items =
        items.foldl
          (fun c i => if i ∈ c then c else c ++ [i]) s.completed_items := by
  induction items with
  | nil => intro s; rfl
  | cons i t ih =>
    intro s
    have hstep : (processItem probe s i).completed_items =
        if i ∈ s.completed_items then s.completed_items
        else s.completed_items ++ [i] := by
      by_cases hm : i ∈ s.completed_items <;>
        simp [processItem, ScanState.mark_completed,
          completed_foldl_add_result, hm]
    simpa [runItems, List.foldl_cons, hstep] using ih (processItem probe s i)

/-- The duplicate-collapsing fold of a duplicate-free list over an
accumulator disjoint from it just appends the list. -/
theorem dedup_foldl_of_nodup :
    ∀ (items : List String) (c : List String), items.Nodup →
      (∀ i ∈ items, i ∉ c) →
      items.foldl (fun c i => if i ∈ c then c else c ++ [i]) c =
        c ++ items := by
  intro items
  induction items with
  | nil => intro c _ _; simp
  | cons i t ih =>
    intro c hnd hdisj
    have hi : i ∉ c := hdisj i (by simp)
    have hnd' : t.Nodup := hnd.of_cons
    have hdisj' : ∀ j ∈ t, j ∉ c ++ [i] := by
      intro j hj
      simp only [List.mem_append, List.mem_singleton]
      rintro (hc | rfl)
      · exact hdisj j (by simp [hj]) hc
      · exact (List.nodup_cons.mp hnd).1 hj
    simp only [List.foldl_cons, hi, if_false]
    rw [ih (c ++ [i]) hnd' hdisj']
    simp

/-- After processing the first `K` items of a duplicate-free wordlist from a
fresh state, the completed set is exactly that prefix. -/
theorem completed_after_takeK (probe : String → List Json)
    (s0 : ScanState) (W : List String) (K : Nat)
    (h0 : s0.completed_items = []) (hN : W.Nodup) :
    (runItems probe s0 (W.take K)).completed_items = W.take K := by
  rw [completed_runItems, h0]
  simpa using dedup_foldl_of_nodup (W.take K) []
    ((W.take_sublist K).nodup hN) (by simp)

/-- For a duplicate-free wordlist, the remaining items after the first `K`
were completed are exactly the dropped suffix. -/
theorem remaining_after_takeK (probe : String → List Json)
    (s0 : ScanState) (W : List String) (K : Nat)
    (h0 : s0.completed_items = []) (hN : W.Nodup) :
    (runItems probe s0 (W.take K)).get_remaining_items W = W.drop K := by
  unfold ScanState.get_remaining_items
  rw [completed_after_takeK probe s0 W K h0 hN]
  have h1 : (W.take K).filter (fun i => !((W.take K).contains i)) = [] :=
    List.filter_eq_nil_iff.mpr (fun a ha => by simp [ha])
  have h2 : (W.drop K).filter (fun i => !((W.take K).contains i)) =
      W.drop K :=
    List.filter_eq_self.mpr (fun a ha => by
      have hdisj := List.disjoint_take_drop (m := K) (n := K) hN (le_refl K)
      have hnotin : a ∉ W.take K := fun hmem => hdisj hmem ha
      simpa using hnotin)
  have harg : W = W.take K ++ W.drop K := (List.take_append_drop K W).symm
  nth_rewrite 2 [harg]
  rw [List.filter_append, h1, h2]
  simp

/-- C4 (amended): for a duplicate-free wordlist interrupted after the first
`K` items completed, resume sees exactly the dropped suffix — `|W| - K`
items — and running it from the checkpointed state reproduces the state of
an uninterrupted full scan (hence the same result set). -/
theorem resume_complements_interrupted_run (probe : String → List Json)
    (s0 : ScanState) (W : List String) (K : Nat)
    (h0 : s0.completed_items = []) (hK : K ≤ W.length) (hN : W.Nodup) :
    (runItems probe s0 (W.take K)).get_remaining_items W = W.drop K ∧
    ((runItems probe s0 (W.take K)).get_remaining_items W).length =
      W.length - K ∧
    runItems probe (runItems probe s0 (W.take K))
        ((runItems probe s0 (W.take K)).get_remaining_items W) =
      runItems probe s0 W := by
  have hrem := remaining_after_takeK probe s0 W K h0 hN
  refine ⟨hrem, ?_, ?_⟩
  · rw [hrem, List.length_drop]
  · rw [hrem]
    simp only [runItems, ← List.foldl_append, List.take_append_drop]

/-- C4 witness: wordlist `["alpha", "beta"]`, interruption after `K = 1`. -/
theorem resume_complements_interrupted_run_witness :
    (runItems (fun c => [Json.str c])
        (freshState "dns" "example.com" "w.txt" "t0" 2)
        ((["alpha", "beta"] : List String).take 1)).get_remaining_items
        ["alpha", "beta"] = (["alpha", "beta"] : List String).drop 1 ∧
    ((runItems (fun c => [Json.str c])
        (freshState "dns" "example.com" "w.txt" "t0" 2)
        ((["alpha", "beta"] : List String).take 1)).get_remaining_items
        ["alpha", "beta"]).length =
      (["alpha", "beta"] : List String).length - 1 ∧
    runItems (fun c => [Json.str c])
        (runItems (fun c => [Json.str c])
          (freshState "dns" "example.com" "w.txt" "t0" 2)
          ((["alpha", "beta"] : List String).take 1))
        ((runItems (fun c => [Json.str c])
          (freshState "dns" "example.com" "w.txt" "t0" 2)
          ((["alpha", "beta"] : List String).take 1)).get_remaining_items
          ["alpha", "beta"]) =
      runItems (fun c => [Json.str c])
        (freshState "dns" "example.com" "w.txt" "t0" 2) ["alpha", "beta"] :=
  resume_complements_interrupted_run (fun c => [Json.str c])
    (freshState "dns" "example.com" "w.txt" "t0" 2) ["alpha", "beta"] 1
    rfl (by decide) (by decide)

/-- C4 counterexample: for the duplicated wordlist `["alpha", "alpha"]`
interrupted after `K = 1` completed item, resume does not see
`|W| - K = 1` remaining items — the second copy of the completed token is
skipped as well, so 0 items remain. -/
theorem resume_count_fails_on_duplicates :
    ((runItems (fun _ => ([] : List Json))
        (freshState "dns" "example.com" "w.txt" "t0" 2)
        ((["alpha", "alpha"] : List String).take 1)).get_remaining_items
        ["alpha", "alpha"]).length ≠
      (["alpha", "alpha"] : List String).length - 1 := by
  decide

/-- C8: both exports of a result list have exactly as many entries as there
are results (the structured export records that count as `total_count`),
every result's canonical rendering appears among the text lines, the text
lines are sorted lexicographically, and the text export is invariant under
reordering of the results. -/
theorem export_shape (strOf : Json → String) (results results' : List Json)
    (hperm : results.Perm results') :
    (save_results_text_lines strOf results).length = results.length ∧
    (save_results_json_doc results).1.length = results.length ∧
    (save_results_json_doc results).2 = (results.length : Int) ∧
    (∀ r ∈ results,
      rawRendering strOf r ∈ save_results_text_lines strOf results) ∧
    (save_results_text_lines strOf results).Pairwise (· ≤ ·) ∧
    save_results_text_lines strOf results =
      save_results_text_lines strOf results' := by
  letI rrel : Json → Json → Prop :=
    fun a b => rawRendering strOf a ≤ rawRendering strOf b
  haveI htot : IsTotal Json rrel := ⟨fun a b => le_total _ _⟩
  haveI htrans : IsTrans Json rrel := ⟨fun a b c => le_trans⟩
  haveI hanti : IsAntisymm String (· ≤ ·) := ⟨fun a b => le_antisymm⟩
  have hsortedLines : ∀ rs : List Json,
      (save_results_text_lines strOf rs).Pairwise (· ≤ ·) := by
    intro rs
    have hs : List.Sorted rrel (rs.insertionSort rrel) :=
      List.sorted_insertionSort rrel rs
    exact List.pairwise_map.mpr hs
  have hlinesPerm : ∀ rs : List Json,
      (save_results_text_lines strOf rs).Perm
        (rs.map (rawRendering strOf)) := by
    intro rs
    exact (List.perm_insertionSort rrel rs).map (rawRendering strOf)
  refine ⟨?_, rfl, rfl, ?_, hsortedLines results, ?_⟩
  · simpa using (hlinesPerm results).length_eq
  · intro r hr
    have : r ∈ results.insertionSort rrel :=
      (List.perm_insertionSort rrel results).symm.subset hr
    exact List.mem_map_of_mem (rawRendering strOf) this
  · refine List.eq_of_perm_of_sorted ?_ (hsortedLines results)
      (hsortedLines results')
    exact ((hlinesPerm results).trans
      (hperm.map (rawRendering strOf))).trans (hlinesPerm results').symm

/-- C8 witness on two one-key result dictionaries listed in both orders. -/
theorem export_shape_witness :
    (save_results_text_lines (fun _ => "")
        [Json.obj [("raw", Json.str "beta")],
         Json.obj [("raw", Json.str "alpha")]]).length =
      ([Json.obj [("raw", Json.str "beta")],
        Json.obj [("raw", Json.str "alpha")]] : List Json).length ∧
    save_results_text_lines (fun _ => "")
        [Json.obj [("raw", Json.str "beta")],
         Json.obj [("raw", Json.str "alpha")]] =
      save_results_text_lines (fun _ => "")
        [Json.obj [("raw", Json.str "alpha")],
         Json.obj [("raw", Json.str "beta")]] := by
  have h := export_shape (fun _ => "")
    [Json.obj [("raw", Json.str "beta")],
     Json.obj [("raw", Json.str "alpha")]]
    [Json.obj [("raw", Json.str "alpha")],
     Json.obj [("raw", Json.str "beta")]]
    (List.Perm.swap (Json.obj [("raw", Json.str "alpha")])
      (Json.obj [("raw", Json.str "beta")]) [])
  exact ⟨h.1, h.2.2.2.2.2⟩

end Hawkshot
